import Mathlib

/-!
Shallow embedding of flask_rage.py (the flask-rage request-logging middleware).

Modelling conventions:
* Python floats holding millisecond timestamps are modelled as rationals;
  the claims under study concern control flow and exact arithmetic identities,
  not floating-point rounding.
* The ambient clock (current_millis) is modelled by passing the current time
  explicitly as a parameter to each operation that reads it.
* The Flask application-context object (the implicit stack.top) is modelled by
  an explicit Option Ctx value: none when no request context is active.
* Python attributes that may be absent are modelled as Option fields; attribute
  assignment is a functional structure update.
* Operations that can raise a Python exception return Except String.
-/

/-- JSON-style field values as they occur in the log records of this program:
null, strings, numbers (float / int kept apart as in Python), the two-element
string list used for the exception field, and the query-parameter mapping. -/
inductive Val where
  | null : Val
  | str (s : String) : Val
  | num (q : ℚ) : Val
  | int (n : Int) : Val
  | strList (ss : List String) : Val
  | qdict (kvs : List (String × List String)) : Val
deriving DecidableEq

/-- Python f-string rendering of an optional string: None renders as "None". -/
def pyStr (s : Option String) : String :=
  match s with
  | none => "None"
  | some t => t

/-- An optional string as a record value: absent becomes JSON null. -/
def optStrVal (s : Option String) : Val :=
  match s with
  | none => Val.null
  | some t => Val.str t

/-- An optional number as a record value: absent becomes JSON null. -/
def optRatVal (q : Option ℚ) : Val :=
  match q with
  | none => Val.null
  | some v => Val.num v

/-- The Flask application context (stack.top) as used by this module: the two
attributes flask_rage sets on it. An absent attribute is modelled as none. -/
structure Ctx where
  request_start : Option ℚ := none
  db_time : Option ℚ := none
deriving DecidableEq

/-- A SQLAlchemy connection as seen by the hooks: its truthiness and its
conn.info side-table entry for the "query_start_time" key (none when the key
is absent, some l when the key maps to the list l; list end is the stack top,
matching Python list.append / list.pop(-1)). -/
structure Conn where
  valid : Bool := true
  query_start_time : Option (List ℚ) := none
deriving DecidableEq

/-- FlaskRage._add_request_start_time: reads stack.top; if no context, returns;
otherwise unconditionally sets ctx.request_start to the current time. -/
def add_request_start_time (top : Option Ctx) (now : ℚ) : Option Ctx :=
  match top with
  | none => none
  | some ctx => some { ctx with request_start := some now }

/-- FlaskRage._before_cursor_execute: if conn is falsy, no-op; otherwise
conn.info.setdefault("query_start_time", []).append(current_millis()). -/
def before_cursor_execute (conn : Conn) (now : ℚ) : Conn :=
  if conn.valid then
    { conn with query_start_time := some (conn.query_start_time.getD [] ++ [now]) }
  else conn

/-- FlaskRage._after_cursor_execute: if conn is falsy, return; if stack.top is
None, return; otherwise evaluate
conn.info.get("query_start_time", [None]).pop(-1):
when the key is absent, pop acts on the fresh default list [None] and yields
None (conn.info itself is unchanged, since get does not store the default);
when the key is present, pop(-1) mutates the stored list, raising IndexError
if that list is empty. If the popped value is not None the code runs
total = current_millis() - query_start_time and assigns ctx.db_time = total. -/
def after_cursor_execute (conn : Conn) (top : Option Ctx) (now : ℚ) :
    Except String (Conn × Option Ctx) :=
  if conn.valid then
    match top with
    | none => Except.ok (conn, none)
    | some ctx =>
      match conn.query_start_time with
      | none => Except.ok (conn, some ctx)
      | some stack =>
        match stack.getLast? with
        | none => Except.error "IndexError: pop from empty list"
        | some t =>
          Except.ok ({ conn with query_start_time := some stack.dropLast },
            some { ctx with db_time := some (now - t) })
  else Except.ok (conn, top)

/-- A fresh connection: truthy, no "query_start_time" key in conn.info yet. -/
def conn0 : Conn := { valid := true, query_start_time := none }

/-- A request context whose start hook ran at time 0, with no db time yet. -/
def ctx0 : Ctx := { request_start := some 0, db_time := none }

/-- First query of the C1 run: starts at t=0, completes at t=10 inside the
request context ctx0. -/
def c1_first : Except String (Conn × Option Ctx) :=
  after_cursor_execute (before_cursor_execute conn0 0) (some ctx0) 10

/-- Second query of the C1 run: starts at t=20, completes at t=25, in the same
request context as left by the first completion. -/
def c1_second : Except String (Conn × Option Ctx) :=
  match c1_first with
  | Except.ok (c, t) => after_cursor_execute (before_cursor_execute c 20) t 25
  | Except.error e => Except.error e

/-- C1: the claim says each query completion adds its elapsed time to the
already-accumulated db time (sum of the individual durations, never
decreasing). The code instead assigns ctx.db_time = total, overwriting the
previous value: after a 10 ms query and then a 5 ms query the recorded db time
is 5 (the last duration), not 10 + 5 = 15, and it decreased from 10 to 5. -/
theorem after_cursor_execute_assigns_not_accumulates :
    c1_first = Except.ok ({ valid := true, query_start_time := some [] },
      some { request_start := some 0, db_time := some 10 }) ∧
    c1_second = Except.ok ({ valid := true, query_start_time := some [] },
      some { request_start := some 0, db_time := some 5 }) ∧
    (5 : ℚ) ≠ 10 + 5 ∧ (5 : ℚ) < 10 := by
  have h1 : c1_first = Except.ok ({ valid := true, query_start_time := some [] },
      some { request_start := some 0, db_time := some 10 }) := by
    norm_num [c1_first, after_cursor_execute, before_cursor_execute, conn0, ctx0]
  have h2 : c1_second = Except.ok ({ valid := true, query_start_time := some [] },
      some { request_start := some 0, db_time := some 5 }) := by
    norm_num [c1_second, h1, after_cursor_execute, before_cursor_execute]
  exact ⟨h1, h2, by norm_num, by norm_num⟩

/-- C2: with a valid connection and an active request context, a post-execute
notification finding the key "query_start_time" present but holding an empty
list raises IndexError ([].pop(-1)); only the key-absent case (no start time
ever pushed on this connection) is the safe no-op the spec describes. -/
theorem after_cursor_execute_empty_stack_raises :
    after_cursor_execute { valid := true, query_start_time := some [] } (some ctx0) 5 =
      Except.error "IndexError: pop from empty list" ∧
    after_cursor_execute { valid := true, query_start_time := none } (some ctx0) 5 =
      Except.ok ({ valid := true, query_start_time := none }, some ctx0) := by
  exact ⟨rfl, rfl⟩

/-- C5 counterexample: a query started at t=3 whose completion occurs with no
active request context. The completion pops nothing (the code returns before
the pop), so the pushed start time 3 stays on the connection stack: the stack
state is not the one of a never-started query (conn0). Moreover that stale
entry is observable: a later unmatched completion inside a request context at
t=9 pops the stale 3 and records db_time = 6 for that request, while the same
completion on the never-started connection conn0 records nothing. -/
theorem after_no_ctx_leaves_stale_entry :
    after_cursor_execute (before_cursor_execute conn0 3) none 4 =
      Except.ok ({ valid := true, query_start_time := some [3] }, none) ∧
    ({ valid := true, query_start_time := some [3] } : Conn) ≠ conn0 ∧
    after_cursor_execute { valid := true, query_start_time := some [3] } (some ctx0) 9 =
      Except.ok ({ valid := true, query_start_time := some [] },
        some { request_start := some 0, db_time := some 6 }) ∧
    after_cursor_execute conn0 (some ctx0) 9 = Except.ok (conn0, some ctx0) := by
  refine ⟨rfl, by decide, ?_, rfl⟩
  norm_num [after_cursor_execute, ctx0]

/-- C5 amended: a query completion with no active request context is an early
return: nothing is popped, no db time is recorded anywhere, no exception is
raised, and the connection (including any start time the orphaned query
pushed) is left exactly as it was. -/
theorem after_cursor_execute_no_ctx_noop (conn : Conn) (now : ℚ) :
    after_cursor_execute conn none now = Except.ok (conn, none) := by
  by_cases h : conn.valid <;> simp [after_cursor_execute, h]

/-- C6 counterexample: a context whose request_start was recorded as 5 by a
first invocation of the start hook; a second invocation at time 7 overwrites
it with 7, so the previously recorded value does not survive: the hook is not
idempotent. -/
theorem add_request_start_time_not_idempotent :
    add_request_start_time (some { request_start := some 5, db_time := none }) 7 =
      some { request_start := some 7, db_time := none } ∧
    (7 : ℚ) ≠ 5 := by
  exact ⟨rfl, by norm_num⟩

/-- C6 amended: the start hook unconditionally sets request_start to the
current time whenever a request context is present (a repeated invocation
overwrites the earlier value with the newer timestamp), and is a no-op when no
context is available. -/
theorem add_request_start_time_overwrites (ctx : Ctx) (now : ℚ) :
    add_request_start_time (some ctx) now = some { ctx with request_start := some now } ∧
    add_request_start_time none now = none := by
  exact ⟨rfl, rfl⟩

/-- FlaskRage._db_time: None when no context is active; otherwise the db_time
attribute of the context when it carries one, else None. -/
def db_time_of (top : Option Ctx) : Option ℚ :=
  match top with
  | none => none
  | some ctx => ctx.db_time

/-- FlaskRage._duration: None when no context is active; otherwise
current_millis() - ctx.request_start when the attribute is set and not None,
else None. -/
def duration_of (top : Option Ctx) (now : ℚ) : Option ℚ :=
  match top with
  | none => none
  | some ctx =>
    match ctx.request_start with
    | none => none
    | some t => some (now - t)

/-- FlaskRage._view_time: duration - db_time when both are truthy in the
Python sense (not None and nonzero), else None. -/
def view_time_of (top : Option Ctx) (now : ℚ) : Option ℚ :=
  match duration_of top now, db_time_of top with
  | some d, some b => if d ≠ 0 ∧ b ≠ 0 then some (d - b) else none
  | some _, none => none
  | none, _ => none

/-- C4: the derived view time is some value exactly when both duration and db
time are known (some) and truthy (nonzero), in which case it is their
difference; whenever either is unknown or zero it is none. The function is
total, so computing it never raises. -/
theorem view_time_spec (top : Option Ctx) (now : ℚ) :
    (∀ v : ℚ, view_time_of top now = some v ↔
      ∃ d b, duration_of top now = some d ∧ db_time_of top = some b ∧
        d ≠ 0 ∧ b ≠ 0 ∧ v = d - b) ∧
    (duration_of top now = none ∨ duration_of top now = some 0 ∨
      db_time_of top = none ∨ db_time_of top = some 0 →
      view_time_of top now = none) := by
  constructor
  · intro v
    rcases hd : duration_of top now with _ | d <;>
      rcases hb : db_time_of top with _ | b <;>
        simp only [view_time_of, hd, hb]
    · simp
    · simp
    · simp
    · by_cases h1 : d = 0
      · subst h1; simp
      · by_cases h2 : b = 0
        · subst h2; simp [h1]
        · simp only [h1, h2, ne_eq, not_false_eq_true, and_self, if_true,
            Option.some.injEq]
          constructor
          · intro h
            exact ⟨d, b, rfl, rfl, h1, h2, h.symm⟩
          · rintro ⟨d1, b1, hd1, hb1, _, _, hv⟩
            cases hd1; cases hb1; exact hv.symm
  · intro h
    rcases hd : duration_of top now with _ | d <;>
      rcases hb : db_time_of top with _ | b <;>
        simp only [view_time_of, hd, hb]
    rcases h with h | h | h | h <;> simp_all

/-- Context of the C4 witness: request started at 0 and one tenth of a
millisecond of recorded db time, evaluated at now = 1, giving the same numbers
as the specification example duration=1, db_time=0.1, view=0.9. -/
def ctxV : Ctx := { request_start := some 0, db_time := some (1/10) }

/-- C4 witness: at ctxV the view time is 0.9 = 1 - 0.1, and at ctx0 (db time
never recorded) the view time is none. -/
theorem view_time_spec_witness :
    view_time_of (some ctxV) 1 = some (9/10) ∧ view_time_of (some ctx0) 1 = none := by
  constructor
  · exact ((view_time_spec (some ctxV) 1).1 (9/10)).mpr
      ⟨1, 1/10, by norm_num [duration_of, ctxV], rfl, by norm_num, by norm_num, by norm_num⟩
  · exact (view_time_spec (some ctx0) 1).2 (Or.inr (Or.inr (Or.inl rfl)))

/-- Python dict lookup over an insertion-ordered association list. -/
def dget (d : List (String × Val)) (k : String) : Option Val :=
  (d.find? fun p => p.1 == k).map fun p => p.2

/-- Python dict assignment output[k] = v: replaces the value in place when the
key is already present, appends the pair otherwise. -/
def dictSet (d : List (String × Val)) (k : String) (v : Val) : List (String × Val) :=
  if d.any fun p => p.1 == k then
    d.map fun p => if p.1 == k then (k, v) else p
  else d ++ [(k, v)]

lemma dget_cons (p : String × Val) (d : List (String × Val)) (k : String) :
    dget (p :: d) k = if p.1 = k then some p.2 else dget d k := by
  by_cases h : p.1 = k <;> simp [dget, List.find?_cons, h]

lemma dget_append_left (d1 d2 : List (String × Val)) (k : String) (v : Val)
    (h : dget d1 k = some v) : dget (d1 ++ d2) k = some v := by
  unfold dget at h ⊢
  rw [List.find?_append]
  rcases hf : List.find? (fun p => p.1 == k) d1 with _ | q
  · rw [hf] at h; simp at h
  · rw [hf] at h; rw [hf]; exact h

lemma dget_append_right (d1 d2 : List (String × Val)) (k : String)
    (h : dget d1 k = none) : dget (d1 ++ d2) k = dget d2 k := by
  unfold dget at h ⊢
  rw [List.find?_append]
  rcases hf : List.find? (fun p => p.1 == k) d1 with _ | q
  · rw [hf, Option.none_or]
  · rw [hf] at h; simp at h

lemma dget_eq_none_of_all (d : List (String × Val)) (k : String)
    (h : ∀ p ∈ d, p.1 ≠ k) : dget d k = none := by
  induction d with
  | nil => rfl
  | cons p d ih =>
    rw [dget_cons, if_neg (h p (List.mem_cons_self p d))]
    exact ih fun q hq => h q (List.mem_cons_of_mem p hq)

lemma dget_map_set (d : List (String × Val)) (k : String) (v : Val)
    (h : (d.any fun p => p.1 == k) = true) :
    dget (d.map fun p => if p.1 == k then (k, v) else p) k = some v := by
  induction d with
  | nil => cases h
  | cons p d ih =>
    by_cases hp : p.1 = k
    · simp only [List.map_cons]
      rw [if_pos (by simp [hp]), dget_cons, if_pos rfl]
    · have h2 : (d.any fun p => p.1 == k) = true := by
        simpa [List.any_cons, hp] using h
      simp only [List.map_cons]
      rw [if_neg (by simp [hp]), dget_cons, if_neg hp]
      exact ih h2

lemma dget_map_set_ne (d : List (String × Val)) (k : String) (v : Val) (k' : String)
    (h : k' ≠ k) :
    dget (d.map fun p => if p.1 == k then (k, v) else p) k' = dget d k' := by
  induction d with
  | nil => rfl
  | cons p d ih =>
    by_cases hp : p.1 = k
    · simp only [List.map_cons]
      rw [if_pos (by simp [hp]), dget_cons, dget_cons]
      rw [if_neg (fun he => h he.symm), if_neg (by rw [hp]; exact fun he => h he.symm)]
      exact ih
    · simp only [List.map_cons]
      rw [if_neg (by simp [hp]), dget_cons, dget_cons]
      by_cases hq : p.1 = k'
      · rw [if_pos hq, if_pos hq]
      · rw [if_neg hq, if_neg hq]
        exact ih

lemma dget_dictSet_self (d : List (String × Val)) (k : String) (v : Val) :
    dget (dictSet d k v) k = some v := by
  unfold dictSet
  by_cases h : (d.any fun p => p.1 == k) = true
  · rw [if_pos h]
    exact dget_map_set d k v h
  · rw [if_neg h]
    have hall : ∀ p ∈ d, p.1 ≠ k := by
      intro p hp hk
      exact h (List.any_eq_true.mpr ⟨p, hp, by simp [hk]⟩)
    rw [dget_append_right _ _ _ (dget_eq_none_of_all d k hall), dget_cons, if_pos rfl]

lemma dget_dictSet_ne (d : List (String × Val)) (k : String) (v : Val) (k' : String)
    (h : k' ≠ k) : dget (dictSet d k v) k' = dget d k' := by
  unfold dictSet
  by_cases ha : (d.any fun p => p.1 == k) = true
  · rw [if_pos ha]
    exact dget_map_set_ne d k v k' h
  · rw [if_neg ha]
    rcases hd : dget d k' with _ | w
    · rw [dget_append_right _ _ _ hd, dget_cons, if_neg (fun he => h he.symm)]
      rfl
    · exact dget_append_left _ _ _ _ hd

lemma dget_filterMap (fields : List (String × Val)) (ks : List String) (k : String)
    (v : Val) (hk : k ∈ ks) (hv : dget fields k = some v) :
    dget (ks.filterMap fun key => (dget fields key).map fun w => (key, w)) k = some v := by
  induction ks with
  | nil => cases hk
  | cons a ks ih =>
    by_cases ha : a = k
    · subst ha
      have hsome : ((dget fields a).map fun w => (a, w)) = some (a, v) := by
        rw [hv]; rfl
      simp only [List.filterMap_cons, hsome]
      rw [dget_cons, if_pos rfl]
    · have hk' : k ∈ ks := by
        rcases List.mem_cons.mp hk with h | h
        · exact absurd h.symm ha
        · exact h
      rcases hf : (dget fields a).map (fun w => (a, w)) with _ | q
      · simp only [List.filterMap_cons, hf]
        exact ih hk'
      · have hq1 : q.1 = a := by
          rcases Option.map_eq_some'.mp hf with ⟨w, _, hw⟩
          rw [← hw]
        simp only [List.filterMap_cons, hf]
        rw [dget_cons, if_neg (by rw [hq1]; exact ha)]
        exact ih hk'

lemma dget_filterMap_none (fields : List (String × Val)) (ks : List String) (k : String)
    (hk : k ∉ ks) :
    dget (ks.filterMap fun key => (dget fields key).map fun w => (key, w)) k = none := by
  induction ks with
  | nil => rfl
  | cons a ks ih =>
    have ha : a ≠ k := fun h => hk (List.mem_cons.mpr (Or.inl h.symm))
    have hk' : k ∉ ks := fun h => hk (List.mem_cons_of_mem a h)
    rcases hf : (dget fields a).map (fun w => (a, w)) with _ | q
    · simp only [List.filterMap_cons, hf]
      exact ih hk'
    · have hq1 : q.1 = a := by
        rcases Option.map_eq_some'.mp hf with ⟨w, _, hw⟩
        rw [← hw]
      simp only [List.filterMap_cons, hf]
      rw [dget_cons, if_neg (by rw [hq1]; exact ha)]
      exact ih hk'

lemma dget_of_mem_nodup (fields : List (String × Val)) (k : String) (v : Val)
    (hmem : (k, v) ∈ fields) (hnd : (fields.map Prod.fst).Nodup) :
    dget fields k = some v := by
  induction fields with
  | nil => cases hmem
  | cons p d ih =>
    rw [List.map_cons, List.nodup_cons] at hnd
    rcases List.mem_cons.mp hmem with h | h
    · rw [← h, dget_cons, if_pos rfl]
    · have hne : p.1 ≠ k := by
        intro he
        exact hnd.1 (he ▸ List.mem_map.mpr ⟨(k, v), h, rfl⟩)
      rw [dget_cons, if_neg hne]
      exact ih h hnd.2

/-- Python str.partition(sep)[::2]: the text before the first occurrence of
the separator, and the text after it ("" when the separator is absent). -/
def pyPartition (s sep : String) : String × String :=
  match s.splitOn sep with
  | [] => (s, "")
  | [x] => (x, "")
  | x :: rest => (x, String.intercalate sep rest)

/-- One flask.Response as _parse sees it: its status code and the optional
Content-Type header. -/
structure Response where
  status_code : Int
  content_type : Option String := none
deriving DecidableEq

/-- An exception-like object as _parse and the formatter see it: optional
status_code / code attributes, an optional message attribute, its str() form
and its class name. -/
structure ExcLike where
  status_code : Option Int := none
  code : Option Int := none
  message_attr : Option String := none
  str_form : String := ""
  class_name : String := ""
deriving DecidableEq

/-- The polymorphic second argument of _parse: a genuine Response or an
exception; isinstance(resp, Response) distinguishes the two. -/
inductive Outcome where
  | response (r : Response) : Outcome
  | exc (e : ExcLike) : Outcome
deriving DecidableEq

/-- A flask.Request as _parse reads it: the matched url_rule's endpoint when a
route matched, and the WSGI environ entries accessed via environ.get; the
SERVER_NAME entry is read with [] and is mandatory in WSGI, hence a plain
String. -/
structure Request where
  url_rule_endpoint : Option String := none
  request_method : Option String := none
  path_info : Option String := none
  query_string : Option String := none
  server_name : String := "localhost"
deriving DecidableEq

/-- Status resolution of _parse: resp.status_code if the attribute is present,
else resp.code if present, else 500. -/
def statusOf : Outcome → Int
  | Outcome.response r => r.status_code
  | Outcome.exc e =>
    match e.status_code with
    | some s => s
    | none =>
      match e.code with
      | some c => c
      | none => 500

/-- Controller/action resolution of _parse: split the matched endpoint on its
first dot; both None when no route matched. -/
def controllerAction (req : Request) : Option String × Option String :=
  match req.url_rule_endpoint with
  | none => (none, none)
  | some e => (some (pyPartition e ".").1, some (pyPartition e ".").2)

/-- Helper of parse_qs: append a value to its key's list, first-occurrence
key order, matching the dict-of-lists built by Python parse_qs. -/
def addParam (acc : List (String × List String)) (k v : String) :
    List (String × List String) :=
  if acc.any fun p => p.1 == k then
    acc.map fun p => if p.1 == k then (p.1, p.2 ++ [v]) else p
  else acc ++ [(k, [v])]

/-- Python urllib.parse.parse_qs as applied to environ.get("QUERY_STRING")
(an external stdlib collaborator; modelled without percent-decoding): a None
query string is coerced to "", fields are split on "&", each nonempty field is
split once on "=", fields with no "=" or an empty value are dropped, and
values are grouped by key. -/
def parse_qs (qs : Option String) : List (String × List String) :=
  let s := qs.getD ""
  let pairs := (s.splitOn "&").filterMap fun nv =>
    if nv = "" then none
    else
      match nv.splitOn "=" with
      | [] => none
      | [_] => none
      | key :: rest =>
        let v := String.intercalate "=" rest
        if v = "" then none else some (key, v)
  pairs.foldl (fun acc kv => addParam acc kv.1 kv.2) []

/-- FlaskRage._parse: builds the summary message and the extra field map from
the request, the active context and the outcome. The source reads the clock
afresh inside _view_time and _duration; the single now parameter models one
clock reading for the whole call. -/
def parse (req : Request) (top : Option Ctx) (resp : Outcome) (now : ℚ) :
    String × List (String × Val) :=
  let ca := controllerAction req
  let controller := ca.1
  let action := ca.2
  let status := statusOf resp
  let message :=
    "[" ++ toString status ++ "] " ++
      (pyStr req.request_method ++ " ") ++
      (pyStr req.path_info ++ " ") ++
      ("(" ++ pyStr controller ++ "#" ++ pyStr action ++ ")")
  let extra : List (String × Val) := [
    ("method", optStrVal req.request_method),
    ("path", optStrVal req.path_info),
    ("format", match resp with
      | Outcome.response r => optStrVal r.content_type
      | Outcome.exc _ => Val.null),
    ("controller", optStrVal controller),
    ("action", optStrVal action),
    ("status", Val.int status),
    ("view", optRatVal (view_time_of top now)),
    ("duration", optRatVal (duration_of top now)),
    ("db", optRatVal (db_time_of top)),
    ("params", Val.qdict (parse_qs req.query_string)),
    ("exception", match resp with
      | Outcome.response _ => Val.null
      | Outcome.exc e => Val.str e.str_form),
    ("exception_object", match resp with
      | Outcome.response _ => Val.null
      | Outcome.exc e => Val.str e.class_name),
    ("host", Val.str req.server_name)]
  (message, extra)

/-- A request with no matched route and default environ entries. -/
def req0 : Request := {}

/-- An exception carrying both a message attribute and a different str() form. -/
def ex0 : ExcLike :=
  { str_form := "generic error", class_name := "RuntimeError",
    message_attr := some "custom message" }

/-- C7 counterexample: _parse renders the exception field as str(resp); for
ex0, whose message attribute is "custom message" but whose string form is
"generic error", the emitted field is the generic string form, not the
message attribute the claim says is preferred. -/
theorem parse_exception_uses_str_form :
    dget (parse req0 none (Outcome.exc ex0) 0).2 "exception" =
      some (Val.str "generic error") ∧
    "generic error" ≠ "custom message" := by
  exact ⟨rfl, by decide⟩

/-- C7 amended: for every exception outcome the exception field is exactly the
generic string form str(resp) (the message attribute is not consulted in
_parse; only the formatter's exc_info path prefers it) and exception_object is
the class name; for every genuine response outcome both fields are null. -/
theorem parse_exception_fields (req : Request) (top : Option Ctx) (now : ℚ) :
    (∀ e : ExcLike,
      dget (parse req top (Outcome.exc e) now).2 "exception" =
        some (Val.str e.str_form) ∧
      dget (parse req top (Outcome.exc e) now).2 "exception_object" =
        some (Val.str e.class_name)) ∧
    (∀ r : Response,
      dget (parse req top (Outcome.response r) now).2 "exception" = some Val.null ∧
      dget (parse req top (Outcome.response r) now).2 "exception_object" =
        some Val.null) := by
  exact ⟨fun e => ⟨rfl, rfl⟩, fun r => ⟨rfl, rfl⟩⟩

/-- C10: with no matched route, _parse returns null controller and action
fields, and the summary message ends with the literal parenthesized suffix
(None#None), Python's f-string rendering of None for both parts. -/
theorem parse_no_route (req : Request) (h : req.url_rule_endpoint = none)
    (top : Option Ctx) (resp : Outcome) (now : ℚ) :
    dget (parse req top resp now).2 "controller" = some Val.null ∧
    dget (parse req top resp now).2 "action" = some Val.null ∧
    (parse req top resp now).1 =
      ("[" ++ toString (statusOf resp) ++ "] " ++
        (pyStr req.request_method ++ " ") ++ (pyStr req.path_info ++ " ")) ++
        "(None#None)" := by
  rcases req with ⟨ure, mtd, pth, qs, sn⟩
  simp only at h
  subst h
  exact ⟨rfl, rfl, rfl⟩

/-- Logging severity of the two logger methods log_request chooses between. -/
inductive Severity where
  | error : Severity
  | info : Severity
deriving DecidableEq

/-- One emitted logging call: severity, message and the extra field map. -/
structure LogEvent where
  severity : Severity
  message : String
  extra : List (String × Val)
deriving DecidableEq

/-- FlaskRage.log_request: returns early (emitting nothing) when
response.status_code >= 500; otherwise chooses logger.error for status >= 400
and != 404 and logger.info for everything else, emits the _parse record, and
returns the response unchanged. -/
def log_request (req : Request) (top : Option Ctx) (resp : Response) (now : ℚ) :
    Option LogEvent × Response :=
  if resp.status_code ≥ 500 then (none, resp)
  else
    let sev := if resp.status_code ≥ 400 ∧ resp.status_code ≠ 404
      then Severity.error else Severity.info
    let pe := parse req top (Outcome.response resp) now
    (some { severity := sev, message := pe.1, extra := pe.2 }, resp)

/-- C3: for status >= 500 no event is emitted; for 400 <= status < 500 and
status != 404 the _parse record is emitted at error severity; otherwise
(status < 400 or status = 404) it is emitted at info severity. -/
theorem log_request_severity (req : Request) (top : Option Ctx) (resp : Response)
    (now : ℚ) :
    (resp.status_code ≥ 500 → (log_request req top resp now).1 = none) ∧
    (400 ≤ resp.status_code → resp.status_code < 500 → resp.status_code ≠ 404 →
      (log_request req top resp now).1 = some
        { severity := Severity.error,
          message := (parse req top (Outcome.response resp) now).1,
          extra := (parse req top (Outcome.response resp) now).2 }) ∧
    ((resp.status_code < 400 ∨ resp.status_code = 404) →
      (log_request req top resp now).1 = some
        { severity := Severity.info,
          message := (parse req top (Outcome.response resp) now).1,
          extra := (parse req top (Outcome.response resp) now).2 }) := by
  refine ⟨?_, ?_, ?_⟩
  · intro h
    simp [log_request, h]
  · intro h1 h2 h3
    have h5 : ¬ resp.status_code ≥ 500 := by omega
    simp [log_request, h5, h1, h3]
  · intro h
    have h5 : ¬ resp.status_code ≥ 500 := by rcases h with h | h <;> omega
    have h6 : ¬ (resp.status_code ≥ 400 ∧ resp.status_code ≠ 404) := by
      rcases h with h | h
      · rintro ⟨a, _⟩; omega
      · rintro ⟨_, b⟩; exact b h
    simp [log_request, h5, h6]

/-- Responses used by the C3 witness. -/
def resp502 : Response := { status_code := 502 }

/-- A client-error response that is not a 404. -/
def resp403 : Response := { status_code := 403 }

/-- The not-found response that log_request demotes to info severity. -/
def resp404 : Response := { status_code := 404 }

/-- C3 witness: at 502 nothing is emitted, at 403 the record goes out at error
severity, at 404 at info severity. -/
theorem log_request_severity_witness :
    (log_request req0 none resp502 0).1 = none ∧
    (log_request req0 none resp403 0).1 = some
      { severity := Severity.error,
        message := (parse req0 none (Outcome.response resp403) 0).1,
        extra := (parse req0 none (Outcome.response resp403) 0).2 } ∧
    (log_request req0 none resp404 0).1 = some
      { severity := Severity.info,
        message := (parse req0 none (Outcome.response resp404) 0).1,
        extra := (parse req0 none (Outcome.response resp404) 0).2 } := by
  refine ⟨(log_request_severity req0 none resp502 0).1 (by decide),
    (log_request_severity req0 none resp403 0).2.1 (by decide) (by decide) (by decide),
    (log_request_severity req0 none resp404 0).2.2 (Or.inr rfl)⟩

/-- C10 witness: a concrete request with no matched route, parsed with a 404
response: null controller and action, and a message with the (None#None)
suffix. -/
theorem parse_no_route_witness :
    dget (parse req0 none (Outcome.response resp404) 0).2 "controller" =
      some Val.null ∧
    dget (parse req0 none (Outcome.response resp404) 0).2 "action" =
      some Val.null ∧
    (parse req0 none (Outcome.response resp404) 0).1 =
      ("[" ++ toString (statusOf (Outcome.response resp404)) ++ "] " ++
        (pyStr req0.request_method ++ " ") ++ (pyStr req0.path_info ++ " ")) ++
        "(None#None)" :=
  parse_no_route req0 rfl none (Outcome.response resp404) 0

/-- The fixed recognized key set of FlaskRageFormatter (a Python set in the
source; modelled as the list of its members — only membership matters). -/
def recognizedKeys : List String :=
  ["method", "path", "format", "duration", "controller", "action", "status",
   "view", "db", "params", "exception", "exception_object", "host"]

/-- The exc_info triple on a logging record, when set: str() of the exception
type, the exception value, and the traceback text that the stdlib
logging.Formatter.formatException (an external collaborator) renders for it
(non-empty for any genuine exc_info). -/
structure ExcInfo where
  type_str : String
  exc : ExcLike
  backtrace : String
deriving DecidableEq

/-- A logging.LogRecord as the formatter reads it: the rendered message, the
level name, the ISO-8601 rendering of its creation time (the stdlib datetime
conversion is an external collaborator, modelled by the resulting text), the
extra attributes set on the record (attribute names are unique), and the
optional exc_info. -/
structure LogRecord where
  msg : String := ""
  levelname : String := "NOTSET"
  created_iso : String := ""
  fields : List (String × Val) := []
  exc_info : Option ExcInfo := none
deriving DecidableEq

/-- FlaskRageFormatter.__extract_msg: the message attribute when the
exception carries one, else str(exc). -/
def extract_msg (e : ExcLike) : String :=
  match e.message_attr with
  | some m => m
  | none => e.str_form

/-- FlaskRageFormatter.__prepare_error_info: when record.exc_info is set,
store the formatted backtrace under exception_object (only when the backtrace
text is truthy, i.e. non-empty) and [str(type), extracted message] under
exception, overwriting any values those keys already had. -/
def prepare_error_info (output : List (String × Val)) (rec : LogRecord) :
    List (String × Val) :=
  match rec.exc_info with
  | none => output
  | some ei =>
    let output1 := if ei.backtrace ≠ "" then
      dictSet output "exception_object" (Val.str ei.backtrace) else output
    dictSet output1 "exception" (Val.strList [ei.type_str, extract_msg ei.exc])

/-- FlaskRageFormatter.format up to the final json.dumps: copy every
recognized field present on the record, apply __prepare_error_info, then set
@timestamp, severity and message. JSON encoding is an out-of-scope external
collaborator; for the JSON-representable Val values, dumping the resulting
dict and parsing the line reproduces this association list exactly, so the
round-trip of the claim is stated on this output map. -/
def formatRecord (rec : LogRecord) : List (String × Val) :=
  let output := recognizedKeys.filterMap fun k =>
    (dget rec.fields k).map fun v => (k, v)
  let output1 := prepare_error_info output rec
  let output2 := dictSet output1 "@timestamp" (Val.str rec.created_iso)
  let output3 := dictSet output2 "severity" (Val.str rec.levelname)
  dictSet output3 "message" (Val.str rec.msg)

/-- C8: for a record with no exc_info, the formatter output maps every
recognized field present on the record to its exact value, always contains
@timestamp, severity and message with the record's values, and contains
nothing else: any key outside the recognized set (other than the three
always-present ones) is absent from the output. -/
theorem formatter_roundtrip (rec : LogRecord) (hexc : rec.exc_info = none)
    (hnd : (rec.fields.map Prod.fst).Nodup) :
    (∀ k v, (k, v) ∈ rec.fields → k ∈ recognizedKeys →
      dget (formatRecord rec) k = some v) ∧
    dget (formatRecord rec) "@timestamp" = some (Val.str rec.created_iso) ∧
    dget (formatRecord rec) "severity" = some (Val.str rec.levelname) ∧
    dget (formatRecord rec) "message" = some (Val.str rec.msg) ∧
    (∀ k, k ∉ recognizedKeys → k ≠ "@timestamp" → k ≠ "severity" →
      k ≠ "message" → dget (formatRecord rec) k = none) := by
  have hout : formatRecord rec =
      dictSet (dictSet (dictSet (recognizedKeys.filterMap fun k =>
          (dget rec.fields k).map fun v => (k, v))
        "@timestamp" (Val.str rec.created_iso))
        "severity" (Val.str rec.levelname))
        "message" (Val.str rec.msg) := by
    simp only [formatRecord, prepare_error_info, hexc]
  refine ⟨?_, ?_, ?_, ?_, ?_⟩
  · intro k v hkv hkrec
    have hk1 : k ≠ "message" := fun he => by
      subst he; exact absurd hkrec (by decide)
    have hk2 : k ≠ "severity" := fun he => by
      subst he; exact absurd hkrec (by decide)
    have hk3 : k ≠ "@timestamp" := fun he => by
      subst he; exact absurd hkrec (by decide)
    rw [hout, dget_dictSet_ne _ _ _ _ hk1, dget_dictSet_ne _ _ _ _ hk2,
      dget_dictSet_ne _ _ _ _ hk3]
    exact dget_filterMap _ _ _ _ hkrec (dget_of_mem_nodup _ _ _ hkv hnd)
  · rw [hout, dget_dictSet_ne _ _ _ _ (by decide), dget_dictSet_ne _ _ _ _ (by decide)]
    exact dget_dictSet_self _ _ _
  · rw [hout, dget_dictSet_ne _ _ _ _ (by decide)]
    exact dget_dictSet_self _ _ _
  · rw [hout]
    exact dget_dictSet_self _ _ _
  · intro k hk1 hk2 hk3 hk4
    rw [hout, dget_dictSet_ne _ _ _ _ hk4, dget_dictSet_ne _ _ _ _ hk3,
      dget_dictSet_ne _ _ _ _ hk2]
    exact dget_filterMap_none _ _ _ hk1

/-- The record of the C8 witness: recognized fields method, path, status and
params, one unrecognized field, no exc_info. -/
def rec8 : LogRecord :=
  { msg := "message", levelname := "NOTSET",
    created_iso := "2020-01-01T00:00:00+00:00",
    fields := [("method", Val.str "POST"), ("path", Val.str "/url/path"),
      ("status", Val.int 200), ("params", Val.str "?some=parameters"),
      ("bogus", Val.str "dropped")],
    exc_info := none }

/-- C8 witness: recognized fields of rec8 come back with their exact values,
severity is present, and the unrecognized field is dropped. -/
theorem formatter_roundtrip_witness :
    dget (formatRecord rec8) "method" = some (Val.str "POST") ∧
    dget (formatRecord rec8) "status" = some (Val.int 200) ∧
    dget (formatRecord rec8) "severity" = some (Val.str "NOTSET") ∧
    dget (formatRecord rec8) "bogus" = none := by
  have h := formatter_roundtrip rec8 rfl (by decide)
  exact ⟨h.1 "method" (Val.str "POST") (by decide) (by decide),
    h.1 "status" (Val.int 200) (by decide) (by decide),
    h.2.2.1,
    h.2.2.2.2 "bogus" (by decide) (by decide) (by decide) (by decide)⟩

/-- C9: for a record with exc_info set (and the non-empty backtrace the
stdlib always renders for a genuine exc_info), the output's exception_object
is the formatted backtrace and its exception is the two-element list
[str(type), message], where the message prefers the exception's message
attribute over its string form; this holds for every record, in particular
overriding any exception / exception_object extras the record supplied. -/
theorem formatter_exc_info (rec : LogRecord) (ei : ExcInfo)
    (h : rec.exc_info = some ei) (hbt : ei.backtrace ≠ "") :
    dget (formatRecord rec) "exception_object" = some (Val.str ei.backtrace) ∧
    dget (formatRecord rec) "exception" =
      some (Val.strList [ei.type_str, extract_msg ei.exc]) ∧
    extract_msg ei.exc = (match ei.exc.message_attr with
      | some m => m
      | none => ei.exc.str_form) := by
  have hout : formatRecord rec =
      dictSet (dictSet (dictSet (dictSet (dictSet
          (recognizedKeys.filterMap fun k => (dget rec.fields k).map fun v => (k, v))
          "exception_object" (Val.str ei.backtrace))
        "exception" (Val.strList [ei.type_str, extract_msg ei.exc]))
        "@timestamp" (Val.str rec.created_iso))
        "severity" (Val.str rec.levelname))
        "message" (Val.str rec.msg) := by
    simp only [formatRecord, prepare_error_info, h, if_pos hbt]
  refine ⟨?_, ?_, rfl⟩
  · rw [hout, dget_dictSet_ne _ _ _ _ (by decide), dget_dictSet_ne _ _ _ _ (by decide),
      dget_dictSet_ne _ _ _ _ (by decide), dget_dictSet_ne _ _ _ _ (by decide)]
    exact dget_dictSet_self _ _ _
  · rw [hout, dget_dictSet_ne _ _ _ _ (by decide), dget_dictSet_ne _ _ _ _ (by decide),
      dget_dictSet_ne _ _ _ _ (by decide)]
    exact dget_dictSet_self _ _ _

/-- The exc_info of the C9 witness: a ValueError whose message attribute is
absent, with a non-empty rendered backtrace. -/
def ei9 : ExcInfo :=
  { type_str := "ValueError", backtrace := "Traceback - boom",
    exc := { str_form := "boom", class_name := "ValueError" } }

/-- The record of the C9 witness, carrying stale exception extras that the
exc_info data must override. -/
def rec9 : LogRecord :=
  { msg := "msg", levelname := "ERROR", created_iso := "2020-01-01T00:00:00+00:00",
    fields := [("exception", Val.str "stale"), ("exception_object", Val.str "stale2")],
    exc_info := some ei9 }

/-- C9 witness: on rec9 the backtrace and the [type, message] pair replace the
stale extras. -/
theorem formatter_exc_info_witness :
    dget (formatRecord rec9) "exception_object" = some (Val.str "Traceback - boom") ∧
    dget (formatRecord rec9) "exception" =
      some (Val.strList ["ValueError", "boom"]) := by
  have h := formatter_exc_info rec9 ei9 rfl (by decide)
  exact ⟨h.1, h.2.1⟩
